import Mathlib

/-!
# Plant monitoring node (`main/pm_main.c`)

A shallow embedding of `pm_main.c` and theorems about it.

The program talks to the outside world only through calls into ESP-IDF, the C
library and the project's own helper modules (`pm_wifi`, `pm_log`,
`pm_config`).  Every such call is modelled as an `Event` appended to a trace;
what the call returns is read from an environment `Env`, indexed by the number
of earlier calls of the same function.  Control flow, integer arithmetic and
the global variables are translated from the C text.

`assert` and `ESP_ERROR_CHECK` are modelled in their default build, where a
failed check aborts the program.  The two retry loops of `sync_time` are
recursive functions with an iteration budget; `sync_time` passes budgets that
are never used up, which is part of what is proved about it.
-/

namespace PlantMonitoring

/-! ## Data model -/

/-- Values of `sntp_sync_status_t` (ESP-IDF, `esp_sntp.h`), the result type of
`sntp_get_sync_status`: reset, time is synchronized, smooth synchronization in
progress. -/
inductive sntp_sync_status_t
  | SNTP_SYNC_STATUS_RESET
  | SNTP_SYNC_STATUS_COMPLETED
  | SNTP_SYNC_STATUS_IN_PROGRESS
  deriving DecidableEq, Repr

/-- A record of the station roster.  `pm_config.h` is not part of the sources;
`load_config` uses exactly the two string members `mac` and `station`. -/
structure mac_to_station where
  mac : String
  station : String
  deriving DecidableEq, Repr

/-- An argument passed where C expects a `char *`: either a pointer to a
NUL-terminated string, or an integer that the call site converts to a
pointer. -/
inductive char_ptr
  | str (s : String)
  | of_int (n : Int)
  deriving DecidableEq, Repr

/-- Calls that leave the program, with their arguments and results. -/
inductive Event
  | nvs_flash_init (ret : Int)
  | nvs_flash_erase (ret : Int)
  | esp_flash_get_size (ret : Int)
  | wifi_init
  | esp_mqtt_client_init (client : Nat)
  | esp_mqtt_client_register_event (client : Nat)
  | esp_mqtt_client_start (client : Nat)
  | esp_sntp_setoperatingmode
  | esp_sntp_setservername
  | esp_sntp_init
  | sntp_get_sync_status (status : sntp_sync_status_t)
  | vTaskDelay_ms (ms : Nat)
  | esp_sntp_stop
  | init_logging
  | esp_read_mac (ret : Int)
  | get_config_from_url (err : Int)
  | adc1_config_width
  | adc1_config_channel_atten (channel : Nat)
  | adc1_get_raw (channel : Nat) (value : Int)
  | ESP_LOGI (tag : String) (format : String) (args : List Int)
  | sprintf (dest : char_ptr) (format : char_ptr) (ret : Int)
  | esp_mqtt_client_publish (client : Nat) (topic : char_ptr) (data : char_ptr)
      (len qos retain : Int) (ret : Int)
  | esp_deep_sleep (time_in_us : Nat)
  deriving DecidableEq, Repr

/-- What the collaborators answer.  A function of a `Nat` gives the answer to
the call with that many predecessors. -/
structure Env where
  nvs_flash_init : Nat → Int
  nvs_flash_erase : Int
  esp_flash_get_size : Int
  /-- Handle returned by `esp_mqtt_client_init`; `0` is `NULL`. -/
  esp_mqtt_client_init : Nat
  sntp_get_sync_status : Nat → sntp_sync_status_t
  /-- Error code of `esp_read_mac` and the bytes it stores into `mac`. -/
  esp_read_mac : Int × List Nat
  /-- Roster returned by `get_config_from_url` (its length is what the call
  stores into `num_stations`) and the error code it stores into `err`. -/
  get_config_from_url : List mac_to_station × Int
  /-- Result of `adc1_get_raw channel`, by channel and number of earlier reads. -/
  adc1_get_raw : Nat → Nat → Int
  /-- Value returned by `sprintf`, by number of earlier calls.  The call made
  by `app_main` has undefined behaviour in C; the model lets it return. -/
  sprintf : Nat → Int
  /-- Value returned by `esp_mqtt_client_publish` (message id, or a negative
  number on failure), by number of earlier calls. -/
  esp_mqtt_client_publish : Nat → Int

/-- The global variables `stations`, `config`, `num_stations`, the number of
calls made so far to each collaborator that is asked more than once, and the
trace of calls. -/
structure State where
  stations : List mac_to_station
  config : Option mac_to_station
  num_stations : Int
  polls : Nat
  reads : Nat
  sprintfs : Nat
  publishes : Nat
  trace : List Event
  deriving DecidableEq, Repr

/-- Why the program stopped before the end of a function. -/
inductive Abort
  /-- The check `assert(total_retries < total_max_retries)` failed. -/
  | assert_total_retries
  /-- The check `assert(config != NULL)` failed. -/
  | assert_config
  /-- An `ESP_ERROR_CHECK` saw the given error code. -/
  | esp_error_check (code : Int)
  deriving DecidableEq, Repr

/-- How a function call ended. -/
inductive Outcome
  | returned
  | aborted (why : Abort)
  /-- The call entered `esp_deep_sleep`, which does not return. -/
  | deep_sleep
  /-- A loop of the model used up its iteration budget. -/
  | out_of_fuel
  deriving DecidableEq, Repr

/-- The state at program start: globals as initialised in the C file. -/
def State.boot : State :=
  { stations := [], config := none, num_stations := 0,
    polls := 0, reads := 0, sprintfs := 0, publishes := 0, trace := [] }

/-- Append one call to the trace. -/
def emit (e : Event) (s : State) : State :=
  { s with trace := s.trace ++ [e] }

/-! ## Integer and floating-point arithmetic -/

/-- Reduce an integer to the range of a 32-bit `int` (two's complement). -/
def wrap_int (x : Int) : Int :=
  (x + 2147483648) % 4294967296 - 2147483648

/-- Nearest integer, ties to even. -/
def round_half_even (x : ℚ) : ℤ :=
  let f := ⌊x⌋
  if x - f < 1 / 2 then f
  else if 1 / 2 < x - f then f + 1
  else if f % 2 = 0 then f
  else f + 1

/-- Rounding of an exact result to an IEEE 754 `double` (53 significant bits,
round to nearest, ties to even).  Overflow and subnormal numbers are not
modelled; no value computed by this program comes near them. -/
def round_binary64 (x : ℚ) : ℚ :=
  if x = 0 then 0
  else
    let e : ℤ := Int.log 2 |x|
    let ulp : ℚ := (2 : ℚ) ^ (e - 52)
    (round_half_even (x / ulp) : ℚ) * ulp

/-- Conversion of a `double` to `int`: the fractional part is discarded.  The
conversion is undefined in C when the result does not fit an `int`. -/
def double_to_int (x : ℚ) : Int :=
  if 0 ≤ x then ⌊x⌋ else ⌈x⌉

/-- The function `calculate_vdc_mv`:
`return (reading * 2500) / (pow(2, PM_ADC_BIT_WIDTH) - 1);`
The product is an `int`; `pow` yields a `double`, so the subtraction and the
division are `double` operations and the `return` converts back to `int`.
The conversion of the `int` product to `double` is exact, and `pow` is taken
to return the correctly rounded power.  `PM_ADC_BIT_WIDTH` is
`ADC_WIDTH_BIT_DEFAULT`, a constant of the ESP-IDF ADC driver, and is a
parameter here.  The C result is undefined for a width of 0 (division by
zero). -/
def calculate_vdc_mv (PM_ADC_BIT_WIDTH : Nat) (reading : Int) : Int :=
  let product : Int := wrap_int (reading * 2500)
  let pow2 : ℚ := round_binary64 ((2 : ℚ) ^ PM_ADC_BIT_WIDTH)
  let full_scale : ℚ := round_binary64 (pow2 - 1)
  double_to_int (round_binary64 ((product : ℚ) / full_scale))

/-! ## `sync_time` -/

/-- The loop
`while (sntp_get_sync_status() == SNTP_SYNC_STATUS_RESET && ++retry < retry_count)`
with its body `vTaskDelay(2000 / portTICK_PERIOD_MS)`.  Returns the final value
of `retry`. -/
def sntp_wait_loop (env : Env) (retry_count : Int) :
    Nat → Int → State → Option (Int × State)
  | 0, _, _ => none
  | fuel + 1, retry, s =>
    let status := env.sntp_get_sync_status s.polls
    let s1 : State :=
      { s with polls := s.polls + 1,
               trace := s.trace ++ [Event.sntp_get_sync_status status] }
    if status = sntp_sync_status_t.SNTP_SYNC_STATUS_RESET then
      let retry1 := retry + 1
      if retry1 < retry_count then
        sntp_wait_loop env retry_count fuel retry1 (emit (Event.vTaskDelay_ms 2000) s1)
      else some (retry1, s1)
    else some (retry, s1)

/-- The `do { ... } while (total_retries < total_max_retries)` loop of
`sync_time`.  Returns the final value of `total_retries`. -/
def sync_attempts (env : Env) (total_max_retries : Int) :
    Nat → Int → State → Option (Int × State)
  | 0, _, _ => none
  | fuel + 1, total_retries, s =>
    let s1 := emit Event.esp_sntp_init s
    let retry_count : Int := 10
    match sntp_wait_loop env retry_count 10 0 s1 with
    | none => none
    | some (retry, s2) =>
      if retry = retry_count then
        let total_retries1 := total_retries + 1
        let s3 := emit Event.esp_sntp_stop s2
        if total_retries1 < total_max_retries then
          sync_attempts env total_max_retries fuel total_retries1 s3
        else some (total_retries1, s3)
      else some (total_retries, s2)

/-- The function `sync_time`.  Setting the time zone, logging and formatting
the current time do not influence control flow and are left out of the trace.
The loops get budgets of 3 and 10 iterations, the bounds of their counters. -/
def sync_time (env : Env) (s : State) : Outcome × State :=
  let s1 := emit Event.esp_sntp_setservername (emit Event.esp_sntp_setoperatingmode s)
  let total_max_retries : Int := 3
  match sync_attempts env total_max_retries 3 0 s1 with
  | none => (Outcome.out_of_fuel, s1)
  | some (total_retries, s2) =>
    if total_retries < total_max_retries then (Outcome.returned, s2)
    else (Outcome.aborted Abort.assert_total_retries, s2)

/-- The calls of one outer attempt in which every poll answers reset: start,
ten polls with a delay after each of the first nine, stop. -/
def failed_attempt_trace : List Event :=
  Event.esp_sntp_init ::
    ((List.replicate 9
        [Event.sntp_get_sync_status sntp_sync_status_t.SNTP_SYNC_STATUS_RESET,
         Event.vTaskDelay_ms 2000]).flatten ++
      [Event.sntp_get_sync_status sntp_sync_status_t.SNTP_SYNC_STATUS_RESET,
       Event.esp_sntp_stop])

/-! ## `load_config` -/

/-- The constant `ESP_OK` of ESP-IDF. -/
def ESP_OK : Int := 0

/-- The function `tolower` of the C locale, on character codes. -/
def tolower (c : Nat) : Nat :=
  if 65 ≤ c ∧ c ≤ 90 then c + 32 else c

/-- The characters of a C string, as character codes: everything before the
first NUL. -/
def c_str (s : String) : List Nat :=
  (s.toList.map Char.toNat).takeWhile (fun c => c ≠ 0)

/-- The function `strcasecmp` of the C library: the difference of the first pair of
characters that differ after `tolower`, or 0 when both strings end together.
The end of a list, like a 0 entry, is the terminating NUL. -/
def strcasecmp : List Nat → List Nat → Int
  | [], [] => 0
  | [], c2 :: _ => 0 - (tolower c2 : Int)
  | c1 :: _, [] => (tolower c1 : Int) - 0
  | c1 :: s1, c2 :: s2 =>
    let d : Int := (tolower c1 : Int) - (tolower c2 : Int)
    if d ≠ 0 ∨ c2 = 0 then d else strcasecmp s1 s2

/-- One lower-case hexadecimal digit. -/
def hex_digit (n : Nat) : Char :=
  if n < 10 then Char.ofNat (48 + n) else Char.ofNat (87 + n)

/-- What `sprintf(..., "%02x:", b)` writes for a byte `b`. -/
def sprintf_02x_colon (b : Nat) : List Char :=
  [hex_digit (b / 16), hex_digit (b % 16), ':']

/-- The buffer `macstr` after the formatting loop and `macstr[17] = '\0'`.
`mac` is `uint8_t mac[8] = { 0 }` as filled by `esp_read_mac`. -/
def format_macstr (mac : List Nat) : String :=
  String.mk
    (((List.range 6).map fun i => sprintf_02x_colon (mac.getD i 0 % 256)).flatten.take 17)

/-- The loop `for (int i = 0; i < num_stations; i++)` of `load_config`, as a
function from the entries not yet visited and the current value of `config`
to the final value of `config`. -/
def load_config_scan (macstr : String) :
    List mac_to_station → Option mac_to_station → Option mac_to_station
  | [], config => config
  | st :: rest, config =>
    load_config_scan macstr rest
      (if strcasecmp (c_str st.mac) (c_str macstr) = 0 then some st else config)

/-- The function `load_config`.  Logging is left out of the trace. -/
def load_config (env : Env) (s : State) : Outcome × State :=
  let s1 := emit (Event.esp_read_mac env.esp_read_mac.1) s
  if env.esp_read_mac.1 ≠ ESP_OK then
    (Outcome.aborted (Abort.esp_error_check env.esp_read_mac.1), s1)
  else
    let macstr := format_macstr env.esp_read_mac.2
    let err := env.get_config_from_url.2
    let s2 : State :=
      { s1 with stations := env.get_config_from_url.1,
                num_stations := env.get_config_from_url.1.length,
                trace := s1.trace ++ [Event.get_config_from_url err] }
    if err ≠ ESP_OK then (Outcome.aborted (Abort.esp_error_check err), s2)
    else
      let s3 : State := { s2 with config := load_config_scan macstr s2.stations s2.config }
      if s3.config = none then (Outcome.aborted Abort.assert_config, s3)
      else (Outcome.returned, s3)

/-! ## `app_main` -/

/-- The constant `ESP_ERR_NVS_NO_FREE_PAGES` of ESP-IDF. -/
def ESP_ERR_NVS_NO_FREE_PAGES : Int := 0x110d

/-- The constant `ESP_ERR_NVS_NEW_VERSION_FOUND` of ESP-IDF. -/
def ESP_ERR_NVS_NEW_VERSION_FOUND : Int := 0x1110

/-- Channel numbers of the ESP-IDF ADC driver. -/
def ADC1_CHANNEL_3 : Nat := 3

/-- Channel numbers of the ESP-IDF ADC driver. -/
def ADC1_CHANNEL_4 : Nat := 4

/-- Channel numbers of the ESP-IDF ADC driver. -/
def ADC1_CHANNEL_5 : Nat := 5

/-- The array `TAG_CH`. -/
def TAG_CH : List String := ["plant1", "plant2", "plant3"]

/-- Deep-sleep time `PM_MEASURE_EVERY_MINS * 60 * uS_TO_S_FACTOR`, a `uint64_t`. -/
def deep_sleep_us : Nat := (60 * 60 * 1000000) % 2 ^ 64

/-- The function `mqtt_init`: returns the client handle. -/
def mqtt_init (env : Env) (s : State) : Nat × State :=
  let client := env.esp_mqtt_client_init
  (client,
    emit (Event.esp_mqtt_client_start client)
      (emit (Event.esp_mqtt_client_register_event client)
        (emit (Event.esp_mqtt_client_init client) s)))

/-- One call `adc1_get_raw(channel)`. -/
def adc1_read (env : Env) (channel : Nat) (s : State) : Int × State :=
  let v := env.adc1_get_raw channel s.reads
  (v, { s with reads := s.reads + 1, trace := s.trace ++ [Event.adc1_get_raw channel v] })

/-- Assignment `a[i][j] = v` in a two-dimensional array. -/
def set2 (a : List (List Int)) (i j : Nat) (v : Int) : List (List Int) :=
  a.set i ((a.getD i []).set j v)

/-- Body of the sampling loop `for (int i = 0; i < 5; i++)`: one reading of
each of the three channels into column `i` of `adc1_reading`. -/
def sample_step (env : Env) (acc : List (List Int) × State) (i : Nat) :
    List (List Int) × State :=
  let r0 := adc1_read env ADC1_CHANNEL_5 acc.2
  let r1 := adc1_read env ADC1_CHANNEL_3 r0.2
  let r2 := adc1_read env ADC1_CHANNEL_4 r1.2
  (set2 (set2 (set2 acc.1 0 i r0.1) 1 i r1.1) 2 i r2.1, r2.2)

/-- Lines 247 to 251 for one row of `adc1_reading`: the accumulator
`adc1_values[i]` is set to 0, the five readings are added to it with `int`
additions, and it is divided by 5 with `int` division. -/
def average (row : List Int) : Int :=
  Int.tdiv ((List.range 5).foldl (fun acc o => wrap_int (acc + row.getD o 0)) 0) 5

/-- Body of the loop `for (int i = 0; i < 3; i++)` that averages channel `i`
and publishes.  The argument written `sprintf("%d", adc1_values[i])` in the C
text calls `sprintf` with the string literal as destination and the integer
where the format string belongs, and hands the `int` that `sprintf` returns to
`esp_mqtt_client_publish` as its `data` pointer. -/
def channel_step (env : Env) (mqtt_client : Nat) (adc1_reading : List (List Int))
    (acc : List Int × State) (i : Nat) : List Int × State :=
  let avg := average (adc1_reading.getD i [])
  let adc1_values := acc.1.set i avg
  let tag := TAG_CH.getD i ""
  let s1 := emit (Event.ESP_LOGI tag "avg=%d" [avg]) acc.2
  if mqtt_client ≠ 0 then
    let topic := "plants/monitor"
    let s2 := emit (Event.ESP_LOGI tag "publishing %d to topic %s" [avg]) s1
    let n := env.sprintf s2.sprintfs
    let s3 : State :=
      { s2 with sprintfs := s2.sprintfs + 1,
                trace := s2.trace ++
                  [Event.sprintf (char_ptr.str "%d") (char_ptr.of_int avg) n] }
    let published_bytes := env.esp_mqtt_client_publish s3.publishes
    let s4 : State :=
      { s3 with publishes := s3.publishes + 1,
                trace := s3.trace ++
                  [Event.esp_mqtt_client_publish mqtt_client (char_ptr.str topic)
                    (char_ptr.of_int n) 0 0 0 published_bytes] }
    (adc1_values, emit (Event.ESP_LOGI tag "published_bytes=%d" [published_bytes]) s4)
  else
    (adc1_values, emit (Event.ESP_LOGI tag "No mqtt client, cannot publish data" []) s1)

/-- The body of `while (TRUE)` up to the call of `esp_deep_sleep`, which is
declared not to return: the device restarts from `app_main` on wake-up, so the
statements after the call are never reached.  `adc1_reading` is not
initialised in C; every element is written before it is read.  The loop that
formats `4095 - calculate_vdc_mv(adc1_values[o])` into the local buffer
`value` has no consumer (the call using it is commented out) and leaves no
event. -/
def measure_and_sleep (env : Env) (mqtt_client : Nat) (adc1_values : List Int)
    (s : State) : Outcome × State :=
  let sampled :=
    (List.range 5).foldl (sample_step env) (List.replicate 3 (List.replicate 5 0), s)
  let published :=
    (List.range 3).foldl (channel_step env mqtt_client sampled.1) (adc1_values, sampled.2)
  (Outcome.deep_sleep, emit (Event.esp_deep_sleep deep_sleep_us) published.2)

/-- The part of `app_main` before `sync_time`: flash storage, chip
information (printing only), WiFi and the MQTT client.  Returns the client
handle. -/
def app_startup (env : Env) : Outcome × Nat × State :=
  let ret := env.nvs_flash_init 0
  let s1 := emit (Event.nvs_flash_init ret) State.boot
  let erased : Outcome × Int × State :=
    if ret = ESP_ERR_NVS_NO_FREE_PAGES ∨ ret = ESP_ERR_NVS_NEW_VERSION_FOUND then
      let s2 := emit (Event.nvs_flash_erase env.nvs_flash_erase) s1
      if env.nvs_flash_erase ≠ ESP_OK then
        (Outcome.aborted (Abort.esp_error_check env.nvs_flash_erase), ret, s2)
      else
        (Outcome.returned, env.nvs_flash_init 1,
          emit (Event.nvs_flash_init (env.nvs_flash_init 1)) s2)
    else (Outcome.returned, ret, s1)
  if erased.1 ≠ Outcome.returned then (erased.1, 0, erased.2.2)
  else if erased.2.1 ≠ ESP_OK then
    (Outcome.aborted (Abort.esp_error_check erased.2.1), 0, erased.2.2)
  else
    let s3 := emit (Event.esp_flash_get_size env.esp_flash_get_size) erased.2.2
    if env.esp_flash_get_size ≠ ESP_OK then (Outcome.returned, 0, s3)
    else
      let client := mqtt_init env (emit Event.wifi_init s3)
      (Outcome.returned, client.1, client.2)

/-- Whether `app_startup` reached the call of `sync_time`, as opposed to
aborting or returning from `app_main` after `esp_flash_get_size` failed. -/
def startup_completed (env : Env) : Bool :=
  (app_startup env).1 = Outcome.returned ∧ env.esp_flash_get_size = ESP_OK

/-- The call `sync_time()` of `app_main`, in the state that `app_startup`
leaves. -/
def app_sync_time (env : Env) : Outcome × State :=
  sync_time env (app_startup env).2.2

/-- The calls `init_logging(); load_config();` of `app_main`, in the state
that `sync_time` leaves. -/
def app_load_config (env : Env) : Outcome × State :=
  load_config env (emit Event.init_logging (app_sync_time env).2)

/-- The function `app_main`, up to the first call of `esp_deep_sleep`. -/
def app_main (env : Env) : Outcome × State :=
  if ¬ startup_completed env then ((app_startup env).1, (app_startup env).2.2)
  else if (app_sync_time env).1 ≠ Outcome.returned then app_sync_time env
  else if (app_load_config env).1 ≠ Outcome.returned then app_load_config env
  else
    let s1 :=
      emit (Event.adc1_config_channel_atten ADC1_CHANNEL_4)
        (emit (Event.adc1_config_channel_atten ADC1_CHANNEL_3)
          (emit (Event.adc1_config_channel_atten ADC1_CHANNEL_5)
            (emit Event.adc1_config_width (app_load_config env).2)))
    measure_and_sleep env (app_startup env).2.1 [0, 0, 0] s1

/-- Calls that take a measurement, publish telemetry on `"plants/monitor"` or
enter deep sleep. -/
def Event.is_measurement : Event → Bool
  | Event.adc1_get_raw _ _ => true
  | Event.esp_mqtt_client_publish _ topic _ _ _ _ _ =>
    decide (topic = char_ptr.str "plants/monitor")
  | Event.esp_deep_sleep _ => true
  | _ => false

/-- Calls of `esp_mqtt_client_publish`. -/
def Event.is_publish : Event → Bool
  | Event.esp_mqtt_client_publish _ _ _ _ _ _ _ => true
  | _ => false

/-- Trace of `j` polls that answer reset, each followed by the delay. -/
def waiting_trace (j : Nat) : List Event :=
  (List.replicate j
    [Event.sntp_get_sync_status sntp_sync_status_t.SNTP_SYNC_STATUS_RESET,
     Event.vTaskDelay_ms 2000]).flatten

/-- Two addresses are the same up to the case of their letters. -/
def same_address (a b : String) : Prop :=
  (c_str a).map tolower = (c_str b).map tolower

instance (a b : String) : Decidable (same_address a b) := by
  unfold same_address; infer_instance

/-- The readings of one channel in one cycle: the sampling loop reads channels
5, 3, 4 in turn, so the channel at position `offset` of that order gets the
reads number `3 * i + offset` of the cycle. -/
def sampled_row (env : Env) (s : State) (channel offset : Nat) : List Int :=
  (List.range 5).map fun i => env.adc1_get_raw channel (s.reads + (3 * i + offset))

/-- The calls made by the sampling loop. -/
def sampling_trace (env : Env) (s : State) : List Event :=
  ((List.range 5).map fun i =>
    [Event.adc1_get_raw ADC1_CHANNEL_5 (env.adc1_get_raw ADC1_CHANNEL_5 (s.reads + (3 * i + 0))),
     Event.adc1_get_raw ADC1_CHANNEL_3 (env.adc1_get_raw ADC1_CHANNEL_3 (s.reads + (3 * i + 1))),
     Event.adc1_get_raw ADC1_CHANNEL_4 (env.adc1_get_raw ADC1_CHANNEL_4 (s.reads + (3 * i + 2)))]).flatten

/-- The calls made for channel `i` with average `avg` when a client exists. -/
def publish_trace (env : Env) (mqtt_client : Nat) (s : State) (i : Nat) (tag : String)
    (avg : Int) : List Event :=
  [Event.ESP_LOGI tag "avg=%d" [avg],
   Event.ESP_LOGI tag "publishing %d to topic %s" [avg],
   Event.sprintf (char_ptr.str "%d") (char_ptr.of_int avg) (env.sprintf (s.sprintfs + i)),
   Event.esp_mqtt_client_publish mqtt_client (char_ptr.str "plants/monitor")
     (char_ptr.of_int (env.sprintf (s.sprintfs + i))) 0 0 0
     (env.esp_mqtt_client_publish (s.publishes + i)),
   Event.ESP_LOGI tag "published_bytes=%d" [env.esp_mqtt_client_publish (s.publishes + i)]]

/-- No call of the trace takes a measurement, publishes telemetry or enters
deep sleep. -/
def quiet (s : State) : Prop :=
  ∀ e, e ∈ s.trace → Event.is_measurement e = false

/-- The range of a 32-bit `int`. -/
def int_range (x : Int) : Prop :=
  -2147483648 ≤ x ∧ x ≤ 2147483647

instance (x : Int) : Decidable (int_range x) := by
  unfold int_range; infer_instance

/-! ## Concrete environments -/

/-- A device whose address is `aa:bb:cc:0d:ee:ff`, listed once in a roster of
three in upper case; every collaborator succeeds at once and every ADC reading
is 100. -/
def env_ready : Env :=
  { nvs_flash_init := fun _ => 0, nvs_flash_erase := 0, esp_flash_get_size := 0,
    esp_mqtt_client_init := 1,
    sntp_get_sync_status := fun _ => sntp_sync_status_t.SNTP_SYNC_STATUS_COMPLETED,
    esp_read_mac := (0, [0xaa, 0xbb, 0xcc, 0x0d, 0xee, 0xff]),
    get_config_from_url :=
      ([⟨"11:22:33:44:55:66", "porch"⟩, ⟨"AA:BB:CC:0D:EE:FF", "greenhouse"⟩,
        ⟨"aa:bb:cc:0d:ee:f0", "cellar"⟩], 0),
    adc1_get_raw := fun _ _ => 100,
    sprintf := fun _ => 3,
    esp_mqtt_client_publish := fun _ => 0 }

/-- As `env_ready`, but the time is never synchronized. -/
def env_never_synced : Env :=
  { env_ready with
    sntp_get_sync_status := fun _ => sntp_sync_status_t.SNTP_SYNC_STATUS_RESET }

/-- As `env_ready`, but every poll reports a smooth synchronization in
progress. -/
def env_in_progress : Env :=
  { env_ready with
    sntp_get_sync_status := fun _ => sntp_sync_status_t.SNTP_SYNC_STATUS_IN_PROGRESS }

/-- As `env_ready`, but the first two polls answer reset and the third reports
a smooth synchronization in progress. -/
def env_third_poll : Env :=
  { env_ready with
    sntp_get_sync_status := fun k =>
      if k = 2 then sntp_sync_status_t.SNTP_SYNC_STATUS_IN_PROGRESS
      else sntp_sync_status_t.SNTP_SYNC_STATUS_RESET }

/-- As `env_ready`, but the roster lists the device's address twice. -/
def env_duplicates : Env :=
  { env_ready with
    get_config_from_url :=
      ([⟨"AA:BB:CC:0D:EE:FF", "first"⟩, ⟨"11:22:33:44:55:66", "porch"⟩,
        ⟨"aa:bb:cc:0d:ee:ff", "second"⟩], 0) }

/-- As `env_ready`, but the roster does not list the device's address. -/
def env_unlisted : Env :=
  { env_ready with
    get_config_from_url :=
      ([⟨"11:22:33:44:55:66", "porch"⟩, ⟨"aa:bb:cc:0d:ee:f0", "cellar"⟩], 0) }

/-- As `env_ready`, but `esp_mqtt_client_init` returns `NULL`. -/
def env_no_client : Env :=
  { env_ready with esp_mqtt_client_init := 0 }

/-- As `env_ready`, but the publish call for the second channel fails. -/
def env_publish_error : Env :=
  { env_ready with esp_mqtt_client_publish := fun k => if k = 1 then -1 else 0 }

/-! ## Lemmas -/

theorem waiting_trace_succ (j : Nat) :
    waiting_trace (j + 1) =
      Event.sntp_get_sync_status sntp_sync_status_t.SNTP_SYNC_STATUS_RESET ::
        Event.vTaskDelay_ms 2000 :: waiting_trace j := by
  simp [waiting_trace, List.replicate_succ]

theorem sntp_wait_loop_spec (env : Env) (retry_count : Int) :
    ∀ (j fuel : Nat) (retry : Int) (s : State),
      j < fuel → retry + j < retry_count →
      (∀ i, i < j → env.sntp_get_sync_status (s.polls + i)
        = sntp_sync_status_t.SNTP_SYNC_STATUS_RESET) →
      (env.sntp_get_sync_status (s.polls + j) = sntp_sync_status_t.SNTP_SYNC_STATUS_RESET →
        retry_count ≤ retry + j + 1) →
      sntp_wait_loop env retry_count fuel retry s =
        some (if env.sntp_get_sync_status (s.polls + j)
                  = sntp_sync_status_t.SNTP_SYNC_STATUS_RESET then retry + j + 1 else retry + j,
              { s with polls := s.polls + j + 1,
                       trace := s.trace ++ (waiting_trace j ++
                         [Event.sntp_get_sync_status (env.sntp_get_sync_status (s.polls + j))]) }) := by
  intro j
  induction j with
  | zero =>
    intro fuel retry s hf hr _ hlast
    obtain ⟨f, rfl⟩ : ∃ f, fuel = f + 1 := ⟨fuel - 1, by omega⟩
    simp only [Nat.add_zero, Nat.cast_zero, add_zero] at *
    by_cases hst : env.sntp_get_sync_status s.polls = sntp_sync_status_t.SNTP_SYNC_STATUS_RESET
    · have := hlast hst
      simp [sntp_wait_loop, hst, waiting_trace, this]
    · simp [sntp_wait_loop, hst, waiting_trace]
  | succ j ih =>
    intro fuel retry s hf hr hall hlast
    obtain ⟨f, rfl⟩ : ∃ f, fuel = f + 1 := ⟨fuel - 1, by omega⟩
    have h0 : env.sntp_get_sync_status s.polls = sntp_sync_status_t.SNTP_SYNC_STATUS_RESET := by
      simpa using hall 0 (by omega)
    have hlt : retry + 1 < retry_count := by push_cast at hr; omega
    have key := ih f (retry + 1)
      (emit (Event.vTaskDelay_ms 2000)
        { s with polls := s.polls + 1,
                 trace := s.trace ++ [Event.sntp_get_sync_status (env.sntp_get_sync_status s.polls)] })
      (by omega) (by push_cast at hr ⊢; omega)
      (by intro i hi
          have := hall (i + 1) (by omega)
          simpa [emit, Nat.add_assoc, Nat.add_comm 1 i] using this)
      (by intro hst
          have := hlast (by simpa [emit, Nat.add_assoc, Nat.add_comm 1 j] using hst)
          push_cast at this ⊢; omega)
    rw [sntp_wait_loop]
    simp only [h0, if_true, hlt]
    rw [h0] at key
    rw [key]
    simp [emit, waiting_trace_succ, Nat.add_assoc, Nat.add_comm 1 j, add_assoc, add_comm (1:Int) j]

theorem first_not_reset (f : Nat → sntp_sync_status_t) (n : Nat) :
    (∀ i, i < n → f i = sntp_sync_status_t.SNTP_SYNC_STATUS_RESET) ∨
      ∃ j, j < n ∧ f j ≠ sntp_sync_status_t.SNTP_SYNC_STATUS_RESET ∧
        ∀ i, i < j → f i = sntp_sync_status_t.SNTP_SYNC_STATUS_RESET := by
  induction n with
  | zero => left; intro i hi; omega
  | succ n ih =>
    rcases ih with h | ⟨j, hj, hne, hall⟩
    · by_cases hn : f n = sntp_sync_status_t.SNTP_SYNC_STATUS_RESET
      · left
        intro i hi
        rcases Nat.lt_succ_iff_lt_or_eq.mp hi with h1 | h1
        · exact h i h1
        · rw [h1]; exact hn
      · right; exact ⟨n, by omega, hn, h⟩
    · right; exact ⟨j, by omega, hne, hall⟩

theorem failed_attempt_trace_eq :
    failed_attempt_trace =
      Event.esp_sntp_init :: (waiting_trace 9 ++
        [Event.sntp_get_sync_status sntp_sync_status_t.SNTP_SYNC_STATUS_RESET,
         Event.esp_sntp_stop]) := rfl

theorem sync_attempts_success (env : Env) (tmax : Int) (fuel : Nat) (t : Int) (s : State)
    (j : Nat) (hj : j < 10)
    (hall : ∀ i, i < j → env.sntp_get_sync_status (s.polls + i)
      = sntp_sync_status_t.SNTP_SYNC_STATUS_RESET)
    (hne : env.sntp_get_sync_status (s.polls + j) ≠ sntp_sync_status_t.SNTP_SYNC_STATUS_RESET) :
    sync_attempts env tmax (fuel + 1) t s =
      some (t, { s with polls := s.polls + j + 1,
                        trace := s.trace ++ (Event.esp_sntp_init :: (waiting_trace j ++
                          [Event.sntp_get_sync_status
                            (env.sntp_get_sync_status (s.polls + j))])) }) := by
  have key := sntp_wait_loop_spec env 10 j 10 0 (emit Event.esp_sntp_init s) hj
    (by omega) (by simpa [emit] using hall)
    (by intro h; exact absurd (by simpa [emit] using h) hne)
  have hne' : env.sntp_get_sync_status ((emit Event.esp_sntp_init s).polls + j)
      ≠ sntp_sync_status_t.SNTP_SYNC_STATUS_RESET := by simpa [emit] using hne
  rw [if_neg hne'] at key
  rw [sync_attempts]
  simp only [key]
  have : ¬ ((j : Int) = 10) := by omega
  simp [this, emit]

theorem sync_attempts_failure (env : Env) (tmax : Int) (fuel : Nat) (t : Int) (s : State)
    (hall : ∀ i, i < 10 → env.sntp_get_sync_status (s.polls + i)
      = sntp_sync_status_t.SNTP_SYNC_STATUS_RESET) :
    sync_attempts env tmax (fuel + 1) t s =
      if t + 1 < tmax then
        sync_attempts env tmax fuel (t + 1)
          { s with polls := s.polls + 10, trace := s.trace ++ failed_attempt_trace }
      else
        some (t + 1, { s with polls := s.polls + 10,
                              trace := s.trace ++ failed_attempt_trace }) := by
  have h9 : env.sntp_get_sync_status ((emit Event.esp_sntp_init s).polls + 9)
      = sntp_sync_status_t.SNTP_SYNC_STATUS_RESET := by simpa [emit] using hall 9 (by omega)
  have key := sntp_wait_loop_spec env 10 9 10 0 (emit Event.esp_sntp_init s) (by omega)
    (by norm_num) (by intro i hi; simpa [emit] using hall i (by omega))
    (by intro _; norm_num)
  rw [if_pos h9] at key
  rw [sync_attempts]
  simp only [key]
  simp only [emit] at h9
  simp [emit, failed_attempt_trace_eq, h9]

theorem sync_time_outcome (env : Env) (s : State) :
    ((∃ k, k < 30 ∧ env.sntp_get_sync_status (s.polls + k)
          ≠ sntp_sync_status_t.SNTP_SYNC_STATUS_RESET) →
        (sync_time env s).1 = Outcome.returned) ∧
    ((∀ k, k < 30 → env.sntp_get_sync_status (s.polls + k)
          = sntp_sync_status_t.SNTP_SYNC_STATUS_RESET) →
        (sync_time env s).1 = Outcome.aborted Abort.assert_total_retries) := by
  have e1 : ∀ (t : State) (i : Nat),
      ({ t with polls := t.polls + 10, trace := t.trace ++ failed_attempt_trace } : State).polls + i
        = t.polls + (10 + i) := by
    intro t i; simp [Nat.add_assoc]
  have e0 : (emit Event.esp_sntp_setservername
      (emit Event.esp_sntp_setoperatingmode s)).polls = s.polls := rfl
  rcases first_not_reset (fun i => env.sntp_get_sync_status (s.polls + i)) 30 with
    hall | ⟨j, hj, hne, hbefore⟩
  · refine ⟨?_, ?_⟩
    · rintro ⟨k, hk, hk'⟩; exact absurd (hall k hk) hk'
    · intro _
      simp only [sync_time]
      rw [sync_attempts_failure _ _ _ _ _ (by intro i hi; rw [e0]; exact hall i (by omega))]
      simp only [show ((0 : Int) + 1 < 3) from by norm_num, if_true]
      rw [sync_attempts_failure _ _ _ _ _
        (by intro i hi; rw [e1, e0]; exact hall _ (by omega))]
      simp only [show ((0 : Int) + 1 + 1 < 3) from by norm_num, if_true]
      rw [sync_attempts_failure _ _ _ _ _
        (by intro i hi
            have h := hall (20 + i) (by omega)
            convert h using 2
            simp only [emit]; omega)]
      simp
  · refine ⟨?_, ?_⟩
    · intro _
      simp only [sync_time]
      by_cases h1 : j < 10
      · rw [sync_attempts_success _ _ _ _ _ j h1
          (by intro i hi; rw [e0]; exact hbefore i hi) (by rw [e0]; exact hne)]
        simp
      · rw [sync_attempts_failure _ _ _ _ _
          (by intro i hi; rw [e0]; exact hbefore i (by omega))]
        simp only [show ((0 : Int) + 1 < 3) from by norm_num, if_true]
        by_cases h2 : j < 20
        · rw [sync_attempts_success _ _ _ _ _ (j - 10) (by omega)
            (by intro i hi; rw [e1, e0]; exact hbefore _ (by omega))
            (by rw [e1, e0, show 10 + (j - 10) = j from by omega]; exact hne)]
          simp
        · rw [sync_attempts_failure _ _ _ _ _
            (by intro i hi; rw [e1, e0]; exact hbefore _ (by omega))]
          simp only [show ((0 : Int) + 1 + 1 < 3) from by norm_num, if_true]
          rw [sync_attempts_success _ _ _ _ _ (j - 20) (by omega)
            (by intro i hi
                have h := hbefore (20 + i) (by omega)
                convert h using 2
                simp only [emit]; omega)
            (by intro hc
                apply hne
                convert hc using 2
                simp only [emit]; omega)]
          simp
    · intro hall; exact absurd (hall j hj) hne

theorem tolower_eq_zero_iff (c : Nat) : tolower c = 0 ↔ c = 0 := by
  unfold tolower; split <;> omega

theorem strcasecmp_eq_zero_iff :
    ∀ a b : List Nat, strcasecmp a b = 0 ↔
      (a.takeWhile (fun c => c ≠ 0)).map tolower = (b.takeWhile (fun c => c ≠ 0)).map tolower
  | [], [] => by simp [strcasecmp]
  | [], c2 :: s2 => by
    have h := tolower_eq_zero_iff c2
    by_cases hc : c2 = 0
    · simp [strcasecmp, hc, tolower]
    · have : tolower c2 ≠ 0 := fun h0 => hc (h.mp h0)
      simp [strcasecmp, hc, List.takeWhile_cons]
      exact_mod_cast this
  | c1 :: s1, [] => by
    have h := tolower_eq_zero_iff c1
    by_cases hc : c1 = 0
    · simp [strcasecmp, hc, tolower]
    · have : tolower c1 ≠ 0 := fun h0 => hc (h.mp h0)
      simp [strcasecmp, hc, List.takeWhile_cons]
      exact_mod_cast this
  | c1 :: s1, c2 :: s2 => by
    have ih := strcasecmp_eq_zero_iff s1 s2
    have h1 := tolower_eq_zero_iff c1
    have h2 := tolower_eq_zero_iff c2
    rw [strcasecmp]
    by_cases hc2 : c2 = 0
    · subst hc2
      by_cases hc1 : c1 = 0
      · subst hc1; simp [tolower]
      · have : tolower c1 ≠ 0 := fun h0 => hc1 (h1.mp h0)
        simp [List.takeWhile_cons, hc1]
        simp [tolower] at this ⊢
        split <;> omega
    · by_cases hd : (tolower c1 : Int) - (tolower c2 : Int) = 0
      · have heq : tolower c1 = tolower c2 := by omega
        have hc1 : c1 ≠ 0 := by
          intro h0; apply hc2; apply h2.mp; rw [← heq]; exact h1.mpr h0
        simp [hd, hc2, hc1, List.takeWhile_cons, heq, ih]
      · have hne : tolower c1 ≠ tolower c2 := by omega
        by_cases hc1 : c1 = 0
        · subst hc1
          simp [hd, hc2, List.takeWhile_cons]
        · simp [hd, hc2, hc1, List.takeWhile_cons, hne]

theorem takeWhile_c_str (a : String) :
    (c_str a).takeWhile (fun c => c ≠ 0) = c_str a := by
  unfold c_str
  rw [List.takeWhile_eq_self_iff]  
  intro x hx
  exact List.mem_takeWhile_imp (p := fun c => decide (c ≠ 0)) hx

theorem strcasecmp_c_str (a b : String) :
    strcasecmp (c_str a) (c_str b) = 0 ↔ same_address a b := by
  rw [strcasecmp_eq_zero_iff, takeWhile_c_str, takeWhile_c_str]; rfl

theorem load_config_scan_no_match (macstr : String) :
    ∀ (l : List mac_to_station) (config : Option mac_to_station),
      (∀ x, x ∈ l → ¬ same_address x.mac macstr) → load_config_scan macstr l config = config
  | [], _, _ => rfl
  | x :: l, config, h => by
    have hx : ¬ strcasecmp (c_str x.mac) (c_str macstr) = 0 := by
      rw [strcasecmp_c_str]; exact h x (List.mem_cons_self _ _)
    rw [load_config_scan, if_neg hx]
    exact load_config_scan_no_match macstr l config
      (fun y hy => h y (List.mem_cons_of_mem _ hy))

theorem load_config_scan_append (macstr : String) :
    ∀ (l₁ l₂ : List mac_to_station) (config : Option mac_to_station),
      load_config_scan macstr (l₁ ++ l₂) config
        = load_config_scan macstr l₂ (load_config_scan macstr l₁ config)
  | [], _, _ => rfl
  | x :: l₁, l₂, config => by
    simp only [List.cons_append, load_config_scan]
    exact load_config_scan_append macstr l₁ l₂ _

theorem load_config_scan_last (macstr : String) (before after : List mac_to_station)
    (st : mac_to_station) (config : Option mac_to_station)
    (hst : same_address st.mac macstr)
    (hafter : ∀ x, x ∈ after → ¬ same_address x.mac macstr) :
    load_config_scan macstr (before ++ st :: after) config = some st := by
  rw [load_config_scan_append, load_config_scan,
    if_pos ((strcasecmp_c_str _ _).mpr hst), load_config_scan_no_match _ _ _ hafter]

theorem load_config_last_match (env : Env) (s : State)
    (before after : List mac_to_station) (st : mac_to_station)
    (hmac : env.esp_read_mac.1 = ESP_OK)
    (hfetch : env.get_config_from_url = (before ++ st :: after, ESP_OK))
    (hst : same_address st.mac (format_macstr env.esp_read_mac.2))
    (hafter : ∀ x, x ∈ after → ¬ same_address x.mac (format_macstr env.esp_read_mac.2)) :
    load_config env s =
      (Outcome.returned,
        { s with stations := before ++ st :: after,
                 num_stations := (before ++ st :: after).length,
                 config := some st,
                 trace := s.trace ++ [Event.esp_read_mac ESP_OK,
                                      Event.get_config_from_url ESP_OK] }) := by
  simp [load_config, hmac, hfetch, emit, load_config_scan_last _ _ _ _ _ hst hafter]

theorem load_config_none (env : Env) (s : State)
    (hconfig : s.config = none)
    (hmac : env.esp_read_mac.1 = ESP_OK)
    (hfetch : env.get_config_from_url.2 = ESP_OK)
    (hnone : ∀ x, x ∈ env.get_config_from_url.1 →
      ¬ same_address x.mac (format_macstr env.esp_read_mac.2)) :
    load_config env s =
      (Outcome.aborted Abort.assert_config,
        { s with stations := env.get_config_from_url.1,
                 num_stations := env.get_config_from_url.1.length,
                 config := none,
                 trace := s.trace ++ [Event.esp_read_mac ESP_OK,
                                      Event.get_config_from_url ESP_OK] }) := by
  simp [load_config, hmac, hfetch, emit, load_config_scan_no_match _ _ _ hnone, hconfig]


theorem round_half_even_intCast (n : ℤ) : round_half_even (n : ℚ) = n := by
  simp [round_half_even]

theorem round_half_even_close (x : ℚ) : |(round_half_even x : ℚ) - x| ≤ 1 / 2 := by
  have h1 : (⌊x⌋ : ℚ) ≤ x := Int.floor_le x
  have h2 : x < (⌊x⌋ : ℚ) + 1 := Int.lt_floor_add_one x
  unfold round_half_even
  simp only
  rw [abs_le]
  split_ifs with ha hb hc
  · constructor <;> linarith
  · push_cast; constructor <;> linarith
  · constructor <;> linarith
  · push_cast; constructor <;> linarith

theorem log_le_of_lt_pow (x : ℚ) (hx : 0 < x) (n : ℕ) (h : x < 2 ^ n) :
    Int.log 2 x < (n : ℤ) := by
  have := (Int.lt_zpow_iff_log_lt (R := ℚ) (b := 2) (by norm_num) (x := (n : ℤ)) hx).mp
    (by simpa using h)
  exact this

theorem round_binary64_intCast (n : ℤ) (h : |n| < 2 ^ 53) : round_binary64 (n : ℚ) = n := by
  unfold round_binary64
  by_cases h0 : (n : ℚ) = 0
  · simp [h0]
  · rw [if_neg h0]
    simp only
    have hpos : (0 : ℚ) < |(n : ℚ)| := abs_pos.mpr h0
    have hlt : |(n : ℚ)| < 2 ^ 53 := by
      have : ((|n| : ℤ) : ℚ) < ((2 ^ 53 : ℤ) : ℚ) := by exact_mod_cast h
      simpa using this
    have he := log_le_of_lt_pow _ hpos 53 hlt
    obtain ⟨k, hk⟩ : ∃ k : ℕ, Int.log 2 |(n : ℚ)| - 52 = -(k : ℤ) :=
      ⟨(52 - Int.log 2 |(n : ℚ)|).toNat, by omega⟩
    rw [hk, zpow_neg, zpow_natCast]
    have hk2 : ((2 : ℚ) ^ k) ≠ 0 := by positivity
    have : (n : ℚ) / ((2 : ℚ) ^ k)⁻¹ = ((n * 2 ^ k : ℤ) : ℚ) := by
      push_cast; field_simp
    rw [this, round_half_even_intCast]
    push_cast; field_simp

theorem round_binary64_close (x : ℚ) (hx : 0 < x) (n : ℕ) (h : x < 2 ^ n) :
    |round_binary64 x - x| ≤ 2 ^ ((n : ℤ) - 54) := by
  unfold round_binary64
  rw [if_neg (ne_of_gt hx)]
  simp only
  rw [abs_of_pos hx]
  have he := log_le_of_lt_pow x hx n h
  set e := Int.log 2 x with he_def
  have hulp : (0 : ℚ) < (2 : ℚ) ^ (e - 52) := by positivity
  have hclose := round_half_even_close (x / (2 : ℚ) ^ (e - 52))
  have hfac : (round_half_even (x / (2 : ℚ) ^ (e - 52)) : ℚ) * (2 : ℚ) ^ (e - 52) - x
      = ((round_half_even (x / (2 : ℚ) ^ (e - 52)) : ℚ) - x / (2 : ℚ) ^ (e - 52))
        * (2 : ℚ) ^ (e - 52) := by
    field_simp
  rw [hfac, abs_mul, abs_of_pos hulp]
  have hmono : (2 : ℚ) ^ (e - 52) ≤ (2 : ℚ) ^ ((n : ℤ) - 53) :=
    zpow_le_zpow_right₀ (by norm_num) (by omega)
  have hhalf : (2 : ℚ) ^ ((n : ℤ) - 54) = 1 / 2 * (2 : ℚ) ^ ((n : ℤ) - 53) := by
    rw [show (n : ℤ) - 54 = ((n : ℤ) - 53) - 1 from by ring, zpow_sub_one₀ (by norm_num)]
    ring
  rw [hhalf]
  calc |(round_half_even (x / (2 : ℚ) ^ (e - 52)) : ℚ) - x / (2 : ℚ) ^ (e - 52)|
        * (2 : ℚ) ^ (e - 52)
      ≤ 1 / 2 * (2 : ℚ) ^ (e - 52) := by
        exact mul_le_mul_of_nonneg_right hclose hulp.le
    _ ≤ 1 / 2 * (2 : ℚ) ^ ((n : ℤ) - 53) := by
        exact mul_le_mul_of_nonneg_left hmono (by norm_num)

theorem calculate_vdc_mv_12 (r : Int) (h0 : 0 ≤ r) (h1 : r ≤ 4095) :
    calculate_vdc_mv 12 r = (r * 2500) / 4095 := by
  have hw : wrap_int (r * 2500) = r * 2500 := by unfold wrap_int; omega
  have hp : round_binary64 ((2 : ℚ) ^ 12) = 4096 := by
    have := round_binary64_intCast 4096 (by norm_num)
    norm_num at this ⊢
    exact this
  have hf : round_binary64 ((4096 : ℚ) - 1) = 4095 := by
    have := round_binary64_intCast 4095 (by norm_num)
    norm_num at this ⊢
    exact this
  unfold calculate_vdc_mv
  simp only [hw, hp, hf]
  set a : Int := r * 2500 with ha
  have ha0 : 0 ≤ a := by omega
  have ha1 : a ≤ 10237500 := by omega
  have hdiv : a = 4095 * (a / 4095) + a % 4095 := (Int.ediv_add_emod a 4095).symm
  have hm0 : 0 ≤ a % 4095 := Int.emod_nonneg a (by norm_num)
  have hm1 : a % 4095 < 4095 := Int.emod_lt_of_pos a (by norm_num)
  have hq0 : 0 ≤ a / 4095 := Int.ediv_nonneg ha0 (by norm_num)
  have hq1 : a / 4095 ≤ 2500 := by omega
  have hx : ((a : ℤ) : ℚ) / 4095 = ((a / 4095 : ℤ) : ℚ) + ((a % 4095 : ℤ) : ℚ) / 4095 := by
    have : ((a : ℤ) : ℚ) = 4095 * ((a / 4095 : ℤ) : ℚ) + ((a % 4095 : ℤ) : ℚ) := by
      exact_mod_cast hdiv
    field_simp
    linarith
  have hbounds : ((a / 4095 : ℤ) : ℚ) ≤ round_binary64 (((a : ℤ) : ℚ) / 4095) ∧
      round_binary64 (((a : ℤ) : ℚ) / 4095) < ((a / 4095 : ℤ) : ℚ) + 1 := by
    by_cases hz : a % 4095 = 0
    · have : ((a : ℤ) : ℚ) / 4095 = ((a / 4095 : ℤ) : ℚ) := by rw [hx, hz]; simp
      rw [this, round_binary64_intCast _ (by rw [abs_of_nonneg hq0]; omega)]
      constructor <;> linarith
    · have hm2 : (1 : ℚ) ≤ ((a % 4095 : ℤ) : ℚ) := by
        have : (1 : ℤ) ≤ a % 4095 := by omega
        exact_mod_cast this
      have hm3 : ((a % 4095 : ℤ) : ℚ) ≤ 4094 := by
        have : a % 4095 ≤ (4094 : ℤ) := by omega
        exact_mod_cast this
      have hq0' : (0 : ℚ) ≤ ((a / 4095 : ℤ) : ℚ) := by exact_mod_cast hq0
      have hq1' : ((a / 4095 : ℤ) : ℚ) ≤ 2500 := by exact_mod_cast hq1
      have hlo : ((a / 4095 : ℤ) : ℚ) + 1 / 4095 ≤ ((a : ℤ) : ℚ) / 4095 := by
        rw [hx]; have : (1 : ℚ) / 4095 ≤ ((a % 4095 : ℤ) : ℚ) / 4095 := by
          apply div_le_div_of_nonneg_right hm2 (by norm_num)
        linarith
      have hhi : ((a : ℤ) : ℚ) / 4095 ≤ ((a / 4095 : ℤ) : ℚ) + 4094 / 4095 := by
        rw [hx]; have : ((a % 4095 : ℤ) : ℚ) / 4095 ≤ 4094 / 4095 := by
          apply div_le_div_of_nonneg_right hm3 (by norm_num)
        linarith
      have hpos : (0 : ℚ) < ((a : ℤ) : ℚ) / 4095 := by
        have : (0 : ℚ) < 1 / 4095 := by norm_num
        linarith
      have hclose := round_binary64_close (((a : ℤ) : ℚ) / 4095) hpos 12
        (by norm_num; linarith)
      have hsmall : (2 : ℚ) ^ (((12 : ℕ) : ℤ) - 54) < 1 / 4095 := by
        rw [show (((12 : ℕ) : ℤ) - 54) = -((42 : ℕ) : ℤ) from by norm_num, zpow_neg, zpow_natCast]
        norm_num
      rw [abs_le] at hclose
      constructor <;> linarith [hclose.1, hclose.2]
  have hnn : (0 : ℚ) ≤ round_binary64 (((a : ℤ) : ℚ) / 4095) := by
    have : (0 : ℚ) ≤ ((a / 4095 : ℤ) : ℚ) := by exact_mod_cast hq0
    linarith [hbounds.1]
  unfold double_to_int
  rw [if_pos hnn, Int.floor_eq_iff]
  exact hbounds

theorem quiet_emit (e : Event) (s : State) (hs : quiet s) (he : Event.is_measurement e = false) :
    quiet (emit e s) := by
  intro x hx
  simp only [emit, List.mem_append, List.mem_singleton] at hx
  rcases hx with hx | hx
  · exact hs x hx
  · rw [hx]; exact he

theorem sntp_wait_loop_quiet (env : Env) (retry_count : Int) :
    ∀ (fuel : Nat) (retry : Int) (s : State) (r : Int) (s' : State),
      sntp_wait_loop env retry_count fuel retry s = some (r, s') → quiet s → quiet s'
  | 0, _, _, _, _, h, _ => by simp [sntp_wait_loop] at h
  | fuel + 1, retry, s, r, s', h, hs => by
    have hq1 : quiet (emit (Event.sntp_get_sync_status (env.sntp_get_sync_status s.polls))
        { s with polls := s.polls + 1 }) := quiet_emit _ _ hs rfl
    rw [sntp_wait_loop] at h
    simp only at h
    split_ifs at h with h1 h2
    · exact sntp_wait_loop_quiet env retry_count fuel _ _ r s' h
        (quiet_emit _ _ hq1 rfl)
    · simp only [Option.some.injEq, Prod.mk.injEq] at h
      rw [← h.2]; exact hq1
    · simp only [Option.some.injEq, Prod.mk.injEq] at h
      rw [← h.2]; exact hq1

theorem sync_attempts_quiet (env : Env) (tmax : Int) :
    ∀ (fuel : Nat) (t : Int) (s : State) (r : Int) (s' : State),
      sync_attempts env tmax fuel t s = some (r, s') → quiet s → quiet s'
  | 0, _, _, _, _, h, _ => by simp [sync_attempts] at h
  | fuel + 1, t, s, r, s', h, hs => by
    rw [sync_attempts] at h
    simp only at h
    cases hw : sntp_wait_loop env 10 10 0 (emit Event.esp_sntp_init s) with
    | none => rw [hw] at h; simp at h
    | some p =>
      obtain ⟨retry, s2⟩ := p
      have hq2 : quiet s2 :=
        sntp_wait_loop_quiet env 10 10 0 _ retry s2 hw (quiet_emit _ _ hs rfl)
      rw [hw] at h
      simp only at h
      split_ifs at h with h1 h2
      · exact sync_attempts_quiet env tmax fuel _ _ r s' h (quiet_emit _ _ hq2 rfl)
      · simp only [Option.some.injEq, Prod.mk.injEq] at h
        rw [← h.2]; exact quiet_emit _ _ hq2 rfl
      · simp only [Option.some.injEq, Prod.mk.injEq] at h
        rw [← h.2]; exact hq2

theorem sync_time_quiet (env : Env) (s : State) (hs : quiet s) : quiet (sync_time env s).2 := by
  have hq1 : quiet (emit Event.esp_sntp_setservername (emit Event.esp_sntp_setoperatingmode s)) :=
    quiet_emit _ _ (quiet_emit _ _ hs rfl) rfl
  unfold sync_time
  simp only
  cases hw : sync_attempts env 3 3 0
      (emit Event.esp_sntp_setservername (emit Event.esp_sntp_setoperatingmode s)) with
  | none => exact hq1
  | some p =>
    obtain ⟨t, s2⟩ := p
    have := sync_attempts_quiet env 3 3 0 _ t s2 hw hq1
    simp only
    split_ifs <;> exact this

theorem load_config_quiet (env : Env) (s : State) (hs : quiet s) :
    quiet (load_config env s).2 := by
  have hq1 : quiet (emit (Event.esp_read_mac env.esp_read_mac.1) s) := quiet_emit _ _ hs rfl
  have hq2 : ∀ (st : List mac_to_station) (n : Int) (c : Option mac_to_station),
      quiet { emit (Event.esp_read_mac env.esp_read_mac.1) s with
        stations := st, num_stations := n, config := c,
        trace := (emit (Event.esp_read_mac env.esp_read_mac.1) s).trace ++
          [Event.get_config_from_url env.get_config_from_url.2] } := by
    intro st n c
    exact quiet_emit (Event.get_config_from_url env.get_config_from_url.2)
      { emit (Event.esp_read_mac env.esp_read_mac.1) s with
        stations := st, num_stations := n, config := c } hq1 rfl
  unfold load_config
  simp only
  split_ifs
  · exact hq1
  · exact hq2 _ _ _
  · exact hq2 _ _ _
  · exact hq2 _ _ _

theorem app_startup_quiet (env : Env) : quiet (app_startup env).2.2 := by
  have hb : quiet State.boot := by intro e he; simp [State.boot] at he
  unfold app_startup mqtt_init
  simp only
  split_ifs <;>
    first
    | exact hb
    | exact quiet_emit _ _ hb rfl
    | exact quiet_emit _ _ (quiet_emit _ _ hb rfl) rfl
    | exact quiet_emit _ _ (quiet_emit _ _ (quiet_emit _ _ hb rfl) rfl) rfl
    | exact quiet_emit _ _ (quiet_emit _ _ (quiet_emit _ _ (quiet_emit _ _ hb rfl) rfl) rfl) rfl
    | exact quiet_emit _ _ (quiet_emit _ _ (quiet_emit _ _ (quiet_emit _ _
        (quiet_emit _ _ hb rfl) rfl) rfl) rfl) rfl
    | exact quiet_emit _ _ (quiet_emit _ _ (quiet_emit _ _ (quiet_emit _ _
        (quiet_emit _ _ (quiet_emit _ _ hb rfl) rfl) rfl) rfl) rfl) rfl
    | exact quiet_emit _ _ (quiet_emit _ _ (quiet_emit _ _ (quiet_emit _ _
        (quiet_emit _ _ (quiet_emit _ _ (quiet_emit _ _ hb rfl) rfl) rfl) rfl) rfl) rfl) rfl
    | exact quiet_emit _ _ (quiet_emit _ _ (quiet_emit _ _ (quiet_emit _ _
        (quiet_emit _ _ (quiet_emit _ _ (quiet_emit _ _ (quiet_emit _ _ hb rfl) rfl) rfl)
          rfl) rfl) rfl) rfl) rfl

theorem sntp_wait_loop_config (env : Env) (retry_count : Int) :
    ∀ (fuel : Nat) (retry : Int) (s : State) (r : Int) (s' : State),
      sntp_wait_loop env retry_count fuel retry s = some (r, s') → s'.config = s.config
  | 0, _, _, _, _, h => by simp [sntp_wait_loop] at h
  | fuel + 1, retry, s, r, s', h => by
    rw [sntp_wait_loop] at h
    simp only at h
    split_ifs at h with h1 h2
    · have ih := sntp_wait_loop_config env retry_count fuel _ _ r s' h
      exact ih
    · simp only [Option.some.injEq, Prod.mk.injEq] at h
      rw [← h.2]
    · simp only [Option.some.injEq, Prod.mk.injEq] at h
      rw [← h.2]

theorem sync_attempts_config (env : Env) (tmax : Int) :
    ∀ (fuel : Nat) (t : Int) (s : State) (r : Int) (s' : State),
      sync_attempts env tmax fuel t s = some (r, s') → s'.config = s.config
  | 0, _, _, _, _, h => by simp [sync_attempts] at h
  | fuel + 1, t, s, r, s', h => by
    rw [sync_attempts] at h
    simp only at h
    cases hw : sntp_wait_loop env 10 10 0 (emit Event.esp_sntp_init s) with
    | none => rw [hw] at h; simp at h
    | some p =>
      obtain ⟨retry, s2⟩ := p
      have hc2 : s2.config = s.config := sntp_wait_loop_config env 10 10 0 (emit Event.esp_sntp_init s) retry s2 hw
      rw [hw] at h
      simp only at h
      split_ifs at h with h1 h2
      · have ih := sync_attempts_config env tmax fuel _ _ r s' h
        exact ih.trans hc2
      · simp only [Option.some.injEq, Prod.mk.injEq] at h
        rw [← h.2]; exact hc2
      · simp only [Option.some.injEq, Prod.mk.injEq] at h
        rw [← h.2]; exact hc2

theorem sync_time_config (env : Env) (s : State) : (sync_time env s).2.config = s.config := by
  unfold sync_time
  simp only
  cases hw : sync_attempts env 3 3 0
      (emit Event.esp_sntp_setservername (emit Event.esp_sntp_setoperatingmode s)) with
  | none => rfl
  | some p =>
    obtain ⟨t, s2⟩ := p
    have hc := sync_attempts_config env 3 3 0
      (emit Event.esp_sntp_setservername (emit Event.esp_sntp_setoperatingmode s)) t s2 hw
    simp only
    split_ifs <;> exact hc

theorem app_startup_config (env : Env) : (app_startup env).2.2.config = none := by
  unfold app_startup mqtt_init
  simp only
  split_ifs <;> rfl

theorem app_load_config_entry (env : Env) :
    (emit Event.init_logging (app_sync_time env).2).config = none := by
  show (app_sync_time env).2.config = none
  unfold app_sync_time
  rw [sync_time_config, app_startup_config]

theorem sync_time_outcome_cases (env : Env) (s : State) :
    ((sync_time env s).1 = Outcome.returned ↔
      ∃ k, k < 30 ∧ env.sntp_get_sync_status (s.polls + k)
        ≠ sntp_sync_status_t.SNTP_SYNC_STATUS_RESET) ∧
    ((sync_time env s).1 = Outcome.returned ∨
      (sync_time env s).1 = Outcome.aborted Abort.assert_total_retries) := by
  have h := sync_time_outcome env s
  by_cases hex : ∃ k, k < 30 ∧ env.sntp_get_sync_status (s.polls + k)
      ≠ sntp_sync_status_t.SNTP_SYNC_STATUS_RESET
  · exact ⟨⟨fun _ => hex, fun _ => h.1 hex⟩, Or.inl (h.1 hex)⟩
  · have hall : ∀ k, k < 30 → env.sntp_get_sync_status (s.polls + k)
        = sntp_sync_status_t.SNTP_SYNC_STATUS_RESET := by
      intro k hk
      by_contra hne
      exact hex ⟨k, hk, hne⟩
    have hab := h.2 hall
    refine ⟨⟨fun hr => ?_, fun hk => absurd hk hex⟩, Or.inr hab⟩
    rw [hab] at hr
    exact absurd hr (by decide)

theorem load_config_outcome (env : Env) (s : State) :
    (load_config env s).1 = Outcome.returned ∨ ∃ why, (load_config env s).1 = Outcome.aborted why := by
  unfold load_config
  simp only
  split_ifs
  · exact Or.inr ⟨_, rfl⟩
  · exact Or.inr ⟨_, rfl⟩
  · exact Or.inr ⟨_, rfl⟩
  · exact Or.inl rfl

/-! ## Claims -/

/-- C1. If every status poll answers reset, `sync_time` starts the client 3
times and polls 30 times, 10 polls per start; each start is followed by its 10
polls and then by the stop of the client, before the next start; after the
third stop the assertion `total_retries < total_max_retries` fails and
`sync_time` does not return. -/
theorem sync_time_exhausts_three_attempts (env : Env) (s : State)
    (h : ∀ k, env.sntp_get_sync_status k = sntp_sync_status_t.SNTP_SYNC_STATUS_RESET) :
    sync_time env s =
      (Outcome.aborted Abort.assert_total_retries,
        { s with polls := s.polls + 30,
                 trace := s.trace ++
                   ([Event.esp_sntp_setoperatingmode, Event.esp_sntp_setservername] ++
                    (failed_attempt_trace ++ (failed_attempt_trace ++ failed_attempt_trace))) }) ∧
    failed_attempt_trace.head? = some Event.esp_sntp_init ∧
    failed_attempt_trace.getLast? = some Event.esp_sntp_stop ∧
    failed_attempt_trace.count Event.esp_sntp_init = 1 ∧
    failed_attempt_trace.count
      (Event.sntp_get_sync_status sntp_sync_status_t.SNTP_SYNC_STATUS_RESET) = 10 ∧
    failed_attempt_trace.count Event.esp_sntp_stop = 1 := by
  refine ⟨?_, by decide, by decide, by decide, by decide, by decide⟩
  simp [sync_time, sync_attempts, sntp_wait_loop, emit, h, failed_attempt_trace]

/-- Witness of C1: the device that is never synchronized. -/
theorem sync_time_exhausts_three_attempts_witness :
    (sync_time env_never_synced State.boot).1 = Outcome.aborted Abort.assert_total_retries ∧
    (sync_time env_never_synced State.boot).2.polls = 30 :=
  have h := (sync_time_exhausts_three_attempts env_never_synced State.boot (fun _ => rfl)).1
  ⟨by rw [h], by rw [h]; rfl⟩

/-- C2, refuted as stated: with the device's address listed first and last in
a roster of three, `load_config` resolves the station to the last entry, while
the first matching entry in roster order is another one. -/
theorem load_config_first_match_refuted :
    (env_duplicates.get_config_from_url.1.filter
        (fun x => decide (same_address x.mac (format_macstr env_duplicates.esp_read_mac.2)))).length
      = 2 ∧
    env_duplicates.get_config_from_url.1.find?
        (fun x => decide (same_address x.mac (format_macstr env_duplicates.esp_read_mac.2)))
      = some ⟨"AA:BB:CC:0D:EE:FF", "first"⟩ ∧
    (load_config env_duplicates State.boot).1 = Outcome.returned ∧
    (load_config env_duplicates State.boot).2.config = some ⟨"aa:bb:cc:0d:ee:ff", "second"⟩ := by
  decide

/-- C2, amended. When the roster holds an entry whose address equals the local
hardware address up to letter case, the station resolved by `load_config` is
the last such entry in roster order: the entry `st` that matches and is
followed by no matching entry, whatever precedes it. -/
theorem load_config_resolves_last_match (env : Env) (s : State)
    (before after : List mac_to_station) (st : mac_to_station)
    (hmac : env.esp_read_mac.1 = ESP_OK)
    (hfetch : env.get_config_from_url = (before ++ st :: after, ESP_OK))
    (hst : same_address st.mac (format_macstr env.esp_read_mac.2))
    (hafter : ∀ x, x ∈ after → ¬ same_address x.mac (format_macstr env.esp_read_mac.2)) :
    load_config env s =
      (Outcome.returned,
        { s with stations := before ++ st :: after,
                 num_stations := (before ++ st :: after).length,
                 config := some st,
                 trace := s.trace ++ [Event.esp_read_mac ESP_OK,
                                      Event.get_config_from_url ESP_OK] }) :=
  load_config_last_match env s before after st hmac hfetch hst hafter

/-- Witness of C2 amended: the roster with the address listed first and last. -/
theorem load_config_resolves_last_match_witness :
    (load_config env_duplicates State.boot).2.config = some ⟨"aa:bb:cc:0d:ee:ff", "second"⟩ := by
  rw [load_config_resolves_last_match env_duplicates State.boot
    [⟨"AA:BB:CC:0D:EE:FF", "first"⟩, ⟨"11:22:33:44:55:66", "porch"⟩]
    [] ⟨"aa:bb:cc:0d:ee:ff", "second"⟩ rfl rfl (by decide) (by simp)]

/-- C3. When exactly one roster entry has an address equal to the local
hardware address up to letter case, `load_config` returns with `config` set to
that entry, wherever it stands in the roster (any entries before and after it)
and whatever the letter case of its address. -/
theorem load_config_resolves_unique_match (env : Env) (s : State)
    (before after : List mac_to_station) (st : mac_to_station)
    (hmac : env.esp_read_mac.1 = ESP_OK)
    (hfetch : env.get_config_from_url = (before ++ st :: after, ESP_OK))
    (hst : same_address st.mac (format_macstr env.esp_read_mac.2))
    (_hbefore : ∀ x, x ∈ before → ¬ same_address x.mac (format_macstr env.esp_read_mac.2))
    (hafter : ∀ x, x ∈ after → ¬ same_address x.mac (format_macstr env.esp_read_mac.2)) :
    load_config env s =
      (Outcome.returned,
        { s with stations := before ++ st :: after,
                 num_stations := (before ++ st :: after).length,
                 config := some st,
                 trace := s.trace ++ [Event.esp_read_mac ESP_OK,
                                      Event.get_config_from_url ESP_OK] }) :=
  load_config_last_match env s before after st hmac hfetch hst hafter

/-- Witness of C3: the address is listed once, in upper case, in the middle of
a roster of three. -/
theorem load_config_resolves_unique_match_witness :
    format_macstr env_ready.esp_read_mac.2 = "aa:bb:cc:0d:ee:ff" ∧
    (load_config env_ready State.boot).2.config = some ⟨"AA:BB:CC:0D:EE:FF", "greenhouse"⟩ :=
  ⟨by decide, by
    rw [load_config_resolves_unique_match env_ready State.boot
      [⟨"11:22:33:44:55:66", "porch"⟩] [⟨"aa:bb:cc:0d:ee:f0", "cellar"⟩]
      ⟨"AA:BB:CC:0D:EE:FF", "greenhouse"⟩ rfl rfl (by decide) (by decide) (by decide)]⟩

/-- C4. When no roster entry (the roster may be empty) has an address equal to
the local hardware address up to letter case, `load_config` entered with
`config == NULL` fails the assertion `config != NULL` and leaves `config`
unset; `app_main` enters `load_config` with `config == NULL`, so its call
fails in this way. -/
theorem load_config_without_match_aborts (env : Env)
    (hmac : env.esp_read_mac.1 = ESP_OK)
    (hfetch : env.get_config_from_url.2 = ESP_OK)
    (hnone : ∀ x, x ∈ env.get_config_from_url.1 →
      ¬ same_address x.mac (format_macstr env.esp_read_mac.2)) :
    (∀ s : State, s.config = none →
      load_config env s =
        (Outcome.aborted Abort.assert_config,
          { s with stations := env.get_config_from_url.1,
                   num_stations := env.get_config_from_url.1.length,
                   config := none,
                   trace := s.trace ++ [Event.esp_read_mac ESP_OK,
                                        Event.get_config_from_url ESP_OK] })) ∧
    (app_load_config env).1 = Outcome.aborted Abort.assert_config ∧
    (app_load_config env).2.config = none := by
  have h1 : ∀ s : State, s.config = none → _ :=
    fun s hs => load_config_none env s hs hmac hfetch hnone
  refine ⟨h1, ?_, ?_⟩
  · unfold app_load_config
    rw [h1 _ (app_load_config_entry env)]
  · unfold app_load_config
    rw [h1 _ (app_load_config_entry env)]

/-- Witness of C4: a roster of two that does not list the device, and the
empty state at boot. -/
theorem load_config_without_match_aborts_witness :
    (load_config env_unlisted State.boot).1 = Outcome.aborted Abort.assert_config ∧
    (app_load_config env_unlisted).1 = Outcome.aborted Abort.assert_config :=
  have h := load_config_without_match_aborts env_unlisted rfl rfl (by decide)
  ⟨by rw [h.1 State.boot rfl], h.2.1⟩


/-- C5. For every channel the value stored by the main loop is `average` of
that channel's row, whatever the accumulator held before; and for five
readings whose running sums fit an `int`, `average` is their sum divided by 5
with truncating division.  In particular `[10,20,30,40,50]` gives 30 and
`[1,1,1,1,2]` gives 1. -/
theorem average_is_truncated_mean (r0 r1 r2 r3 r4 : Int)
    (h0 : int_range r0) (h1 : int_range (r0 + r1)) (h2 : int_range (r0 + r1 + r2))
    (h3 : int_range (r0 + r1 + r2 + r3)) (h4 : int_range (r0 + r1 + r2 + r3 + r4)) :
    average [r0, r1, r2, r3, r4] = Int.tdiv (r0 + r1 + r2 + r3 + r4) 5 ∧
    (∀ (env : Env) (mqtt_client : Nat) (adc1_reading : List (List Int))
        (acc : List Int × State) (i : Nat),
      (channel_step env mqtt_client adc1_reading acc i).1
        = acc.1.set i (average (adc1_reading.getD i []))) ∧
    average [10, 20, 30, 40, 50] = 30 ∧
    average [1, 1, 1, 1, 2] = 1 := by
  refine ⟨?_, ?_, by decide, by decide⟩
  · unfold int_range at h0 h1 h2 h3 h4
    have w0 : wrap_int (0 + r0) = r0 := by unfold wrap_int; omega
    have w1 : wrap_int (r0 + r1) = r0 + r1 := by unfold wrap_int; omega
    have w2 : wrap_int (r0 + r1 + r2) = r0 + r1 + r2 := by unfold wrap_int; omega
    have w3 : wrap_int (r0 + r1 + r2 + r3) = r0 + r1 + r2 + r3 := by unfold wrap_int; omega
    have w4 : wrap_int (r0 + r1 + r2 + r3 + r4) = r0 + r1 + r2 + r3 + r4 := by
      unfold wrap_int; omega
    simp only [average, List.range, List.range.loop, List.foldl, List.getD_cons_zero,
      List.getD_cons_succ, w0, w1, w2, w3, w4]
  · intro env mqtt_client adc1_reading acc i
    unfold channel_step
    simp only
    split_ifs <;> rfl

/-- Witness of C5: the readings 10, 20, 30, 40, 50. -/
theorem average_is_truncated_mean_witness :
    average [10, 20, 30, 40, 50] = Int.tdiv (10 + 20 + 30 + 40 + 50) 5 :=
  (average_is_truncated_mean 10 20 30 40 50 (by decide) (by decide) (by decide) (by decide)
    (by decide)).1

/-- C6. With a 12-bit width, `calculate_vdc_mv r` for a raw average `r` in
0..4095 equals the truncating integer quotient `(r * 2500) / (2^12 - 1)`; for
2047 that is 1249, within 1 mV of 1250. -/
theorem calculate_vdc_mv_is_integer_quotient :
    (∀ r : Int, 0 ≤ r → r ≤ 4095 →
      calculate_vdc_mv 12 r = Int.tdiv (r * 2500) (2 ^ 12 - 1)) ∧
    calculate_vdc_mv 12 2047 = 1249 ∧
    |calculate_vdc_mv 12 2047 - 1250| ≤ 1 := by
  have key : ∀ r : Int, 0 ≤ r → r ≤ 4095 →
      calculate_vdc_mv 12 r = Int.tdiv (r * 2500) (2 ^ 12 - 1) := by
    intro r h0 h1
    rw [calculate_vdc_mv_12 r h0 h1, Int.tdiv_eq_ediv (by omega) (by norm_num)]
    norm_num
  have h2047 : calculate_vdc_mv 12 2047 = 1249 := by
    rw [calculate_vdc_mv_12 2047 (by decide) (by decide)]; decide
  exact ⟨key, h2047, by rw [h2047]; decide⟩

/-- Witness of C6: the full-scale reading 4095 gives 2500 mV. -/
theorem calculate_vdc_mv_is_integer_quotient_witness :
    calculate_vdc_mv 12 4095 = Int.tdiv (4095 * 2500) (2 ^ 12 - 1) :=
  calculate_vdc_mv_is_integer_quotient.1 4095 (by decide) (by decide)

/-- C7, refuted as stated: when `esp_mqtt_client_init` returned `NULL`, the
cycle reaches deep sleep without a single call of `esp_mqtt_client_publish`. -/
theorem cycle_without_client_publishes_nothing :
    env_no_client.esp_mqtt_client_init = 0 ∧
    (app_main env_no_client).1 = Outcome.deep_sleep ∧
    (app_main env_no_client).2.trace.filter Event.is_publish = [] ∧
    (app_main env_no_client).2.trace.getLast? = some (Event.esp_deep_sleep deep_sleep_us) := by
  decide

/-- C7, amended. In a cycle with a client handle that is not `NULL`, whatever
the publish calls return, the cycle samples, then for plant1, plant2, plant3
in this order logs the average, calls `sprintf` and `esp_mqtt_client_publish`
and logs the result, and then calls `esp_deep_sleep`; the arguments of no call
depend on what a publish call returned. -/
theorem cycle_publishes_each_channel_then_sleeps (env : Env) (mqtt_client : Nat) (adc1_values : List Int) (s : State)
    (hclient : mqtt_client ≠ 0) :
    measure_and_sleep env mqtt_client adc1_values s =
      (Outcome.deep_sleep,
        { s with reads := s.reads + 15, sprintfs := s.sprintfs + 3, publishes := s.publishes + 3,
                 trace := s.trace ++ (sampling_trace env s ++
                   (publish_trace env mqtt_client s 0 "plant1"
                       (average (sampled_row env s ADC1_CHANNEL_5 0)) ++
                    (publish_trace env mqtt_client s 1 "plant2"
                       (average (sampled_row env s ADC1_CHANNEL_3 1)) ++
                     (publish_trace env mqtt_client s 2 "plant3"
                       (average (sampled_row env s ADC1_CHANNEL_4 2)) ++
                      [Event.esp_deep_sleep deep_sleep_us])))) }) := by
  simp [measure_and_sleep, sample_step, channel_step, adc1_read, set2, emit, hclient,
    List.range, List.range.loop, sampled_row, sampling_trace, publish_trace, TAG_CH,
    List.replicate, Nat.add_assoc]


/-- Witness of C7 amended: the publish call of the second channel fails. -/
theorem cycle_publishes_each_channel_then_sleeps_witness :
    (measure_and_sleep env_publish_error 1 [0, 0, 0] State.boot).1 = Outcome.deep_sleep ∧
    (measure_and_sleep env_publish_error 1 [0, 0, 0] State.boot).2.publishes = 3 ∧
    ((measure_and_sleep env_publish_error 1 [0, 0, 0] State.boot).2.trace.filter
        Event.is_publish).map
        (fun e => match e with
          | Event.esp_mqtt_client_publish _ _ _ _ _ _ ret => ret
          | _ => 0)
      = [0, -1, 0] := by
  rw [cycle_publishes_each_channel_then_sleeps env_publish_error 1 [0, 0, 0] State.boot
    (by decide)]
  decide

/-- C8, evaluated where it fails: with every reading 100 the three averages
are 100, and each call of `esp_mqtt_client_publish` has topic
`"plants/monitor"` and, as payload argument, the integer 3 that `sprintf`
returned, converted to a pointer, not a string `"100"`. -/
theorem publish_payload_is_sprintf_result :
    (app_main env_ready).2.trace.filter Event.is_publish =
      [Event.esp_mqtt_client_publish 1 (char_ptr.str "plants/monitor") (char_ptr.of_int 3) 0 0 0 0,
       Event.esp_mqtt_client_publish 1 (char_ptr.str "plants/monitor") (char_ptr.of_int 3) 0 0 0 0,
       Event.esp_mqtt_client_publish 1 (char_ptr.str "plants/monitor") (char_ptr.of_int 3) 0 0 0 0] ∧
    (app_main env_ready).2.trace.filter
        (fun e => match e with
          | Event.sprintf _ _ _ => true
          | _ => false) =
      [Event.sprintf (char_ptr.str "%d") (char_ptr.of_int 100) 3,
       Event.sprintf (char_ptr.str "%d") (char_ptr.of_int 100) 3,
       Event.sprintf (char_ptr.str "%d") (char_ptr.of_int 100) 3] := by
  decide

/-- C9, refuted as stated: when every poll reports a smooth synchronization in
progress, no poll reports the synchronized status, yet the first outer attempt
ends after one poll and `sync_time` returns. -/
theorem sync_time_returns_without_completed_poll :
    (∀ k, env_in_progress.sntp_get_sync_status k
      ≠ sntp_sync_status_t.SNTP_SYNC_STATUS_COMPLETED) ∧
    sync_time env_in_progress State.boot =
      (Outcome.returned,
        { State.boot with
          polls := 1,
          trace := [Event.esp_sntp_setoperatingmode, Event.esp_sntp_setservername,
                    Event.esp_sntp_init,
                    Event.sntp_get_sync_status
                      sntp_sync_status_t.SNTP_SYNC_STATUS_IN_PROGRESS] }) :=
  ⟨fun _ => show sntp_sync_status_t.SNTP_SYNC_STATUS_IN_PROGRESS
      ≠ sntp_sync_status_t.SNTP_SYNC_STATUS_COMPLETED from by decide, by decide⟩

/-- C9, amended. An outer attempt of `sync_time` ends all retrying at once,
with no further start, poll or stop, exactly when one of its at most 10 polls
reports a status other than reset (synchronized, or synchronization in
progress), and it ends with that poll; an outer attempt whose 10 polls all
report reset stops the client, increments `total_retries` and starts the next
attempt while `total_retries < total_max_retries`.  Hence `sync_time` returns
exactly when one of the first 30 polls reports a status other than reset, and
fails its assertion otherwise. -/
theorem sync_attempt_succeeds_iff_poll_not_reset (env : Env) (total_max_retries : Int)
    (fuel : Nat) (total_retries : Int) (s : State) :
    (∀ j, j < 10 →
      (∀ i, i < j → env.sntp_get_sync_status (s.polls + i)
        = sntp_sync_status_t.SNTP_SYNC_STATUS_RESET) →
      env.sntp_get_sync_status (s.polls + j) ≠ sntp_sync_status_t.SNTP_SYNC_STATUS_RESET →
      sync_attempts env total_max_retries (fuel + 1) total_retries s =
        some (total_retries,
          { s with polls := s.polls + j + 1,
                   trace := s.trace ++ (Event.esp_sntp_init :: (waiting_trace j ++
                     [Event.sntp_get_sync_status
                       (env.sntp_get_sync_status (s.polls + j))])) })) ∧
    ((∀ i, i < 10 → env.sntp_get_sync_status (s.polls + i)
        = sntp_sync_status_t.SNTP_SYNC_STATUS_RESET) →
      sync_attempts env total_max_retries (fuel + 1) total_retries s =
        if total_retries + 1 < total_max_retries then
          sync_attempts env total_max_retries fuel (total_retries + 1)
            { s with polls := s.polls + 10, trace := s.trace ++ failed_attempt_trace }
        else
          some (total_retries + 1,
            { s with polls := s.polls + 10, trace := s.trace ++ failed_attempt_trace })) ∧
    ((sync_time env s).1 = Outcome.returned ↔
      ∃ k, k < 30 ∧ env.sntp_get_sync_status (s.polls + k)
        ≠ sntp_sync_status_t.SNTP_SYNC_STATUS_RESET) ∧
    ((sync_time env s).1 = Outcome.returned ∨
      (sync_time env s).1 = Outcome.aborted Abort.assert_total_retries) :=
  ⟨fun j hj hall hne =>
      sync_attempts_success env total_max_retries fuel total_retries s j hj hall hne,
    fun hall => sync_attempts_failure env total_max_retries fuel total_retries s hall,
    (sync_time_outcome_cases env s).1, (sync_time_outcome_cases env s).2⟩

/-- Witness of C9 amended: two polls answer reset, the third reports a
synchronization in progress. -/
theorem sync_attempt_succeeds_iff_poll_not_reset_witness :
    sync_attempts env_third_poll 3 3 0 State.boot =
      some (0,
        { State.boot with
          polls := 3,
          trace := [Event.esp_sntp_init,
                    Event.sntp_get_sync_status sntp_sync_status_t.SNTP_SYNC_STATUS_RESET,
                    Event.vTaskDelay_ms 2000,
                    Event.sntp_get_sync_status sntp_sync_status_t.SNTP_SYNC_STATUS_RESET,
                    Event.vTaskDelay_ms 2000,
                    Event.sntp_get_sync_status
                      sntp_sync_status_t.SNTP_SYNC_STATUS_IN_PROGRESS] }) :=
  (sync_attempt_succeeds_iff_poll_not_reset env_third_poll 3 2 0 State.boot).1 2 (by decide)
    (by intro i hi; interval_cases i <;> rfl) (by decide)

/-- C10. In every run of `app_main`, a call that reads an analog sample,
publishes on `"plants/monitor"` or enters deep sleep occurs only if the
start-up completed and both `sync_time` and `load_config` returned before it;
if `sync_time` fails, the run ends there with the failed assertion on
`total_retries`, and if `load_config` fails, the run ends there with an abort,
in both cases with no sample, no publish and no deep sleep in the trace. -/
theorem app_main_measures_only_when_ready (env : Env) :
    ((∃ e, e ∈ (app_main env).2.trace ∧ Event.is_measurement e = true) →
      startup_completed env = true ∧ (app_sync_time env).1 = Outcome.returned ∧
        (app_load_config env).1 = Outcome.returned) ∧
    (startup_completed env = true → (app_sync_time env).1 ≠ Outcome.returned →
      app_main env = app_sync_time env ∧
        (app_main env).1 = Outcome.aborted Abort.assert_total_retries ∧
        quiet (app_main env).2) ∧
    (startup_completed env = true → (app_sync_time env).1 = Outcome.returned →
      (app_load_config env).1 ≠ Outcome.returned →
      app_main env = app_load_config env ∧
        (∃ why, (app_main env).1 = Outcome.aborted why) ∧
        quiet (app_main env).2) := by
  have hq0 := app_startup_quiet env
  have hq1 : quiet (app_sync_time env).2 := sync_time_quiet env _ hq0
  have hq2 : quiet (app_load_config env).2 :=
    load_config_quiet env _ (quiet_emit _ _ hq1 rfl)
  have c2 : startup_completed env = true → (app_sync_time env).1 ≠ Outcome.returned →
      app_main env = app_sync_time env := by
    intro h1 h2
    unfold app_main
    rw [if_neg (by simpa using h1), if_pos h2]
  have c3 : startup_completed env = true → (app_sync_time env).1 = Outcome.returned →
      (app_load_config env).1 ≠ Outcome.returned → app_main env = app_load_config env := by
    intro h1 h2 h3
    unfold app_main
    rw [if_neg (by simpa using h1), if_neg (by simpa using h2), if_pos h3]
  refine ⟨?_, ?_, ?_⟩
  · rintro ⟨e, he, hm⟩
    by_cases h1 : startup_completed env = true
    · by_cases h2 : (app_sync_time env).1 = Outcome.returned
      · by_cases h3 : (app_load_config env).1 = Outcome.returned
        · exact ⟨h1, h2, h3⟩
        · rw [c3 h1 h2 h3] at he
          rw [hq2 e he] at hm; exact absurd hm (by decide)
      · rw [c2 h1 h2] at he
        rw [hq1 e he] at hm; exact absurd hm (by decide)
    · have : app_main env = ((app_startup env).1, (app_startup env).2.2) := by
        unfold app_main; rw [if_pos (by simpa using h1)]
      rw [this] at he
      rw [hq0 e he] at hm; exact absurd hm (by decide)
  · intro h1 h2
    have heq := c2 h1 h2
    refine ⟨heq, ?_, ?_⟩
    · rw [heq]
      rcases (sync_time_outcome_cases env (app_startup env).2.2).2 with h | h
      · exact absurd h h2
      · exact h
    · rw [heq]; exact hq1
  · intro h1 h2 h3
    have heq := c3 h1 h2 h3
    refine ⟨heq, ?_, ?_⟩
    · rw [heq]
      rcases load_config_outcome env (emit Event.init_logging (app_sync_time env).2) with h | h
      · exact absurd h h3
      · exact h
    · rw [heq]; exact hq2

/-- Witness of C10: the device that is never synchronized halts in
`sync_time`. -/
theorem app_main_measures_only_when_ready_witness :
    (app_main env_never_synced).1 = Outcome.aborted Abort.assert_total_retries ∧
    quiet (app_main env_never_synced).2 :=
  ((app_main_measures_only_when_ready env_never_synced).2.1 (by decide) (by decide)).2


end PlantMonitoring
